import Mathlib

/-!
Shallow embedding of the dataset/embedding management core of the
LabelBench repository (files `LabelBench/skeleton/dataset_skeleton.py`,
`ALBench/skeleton/dataset_skeleton.py`, `ALBench/trainer/trainer.py`),
together with theorems settling the frozen claims about it.

Modelling conventions:
- numpy arrays of floats are modelled as `List (List ℚ)` (matrices, row
  major) or `List ℚ` (vectors); machine floating point is not claim
  relevant here, only the dataflow of the normalization statistics.
- a Python value that is "either a value or a callable producing it"
  (labels, normalization statistics) is the tagged type `LazyVal` /
  `LazyStat`, mirroring the `callable(...)` checks of the source.
- raised exceptions are `Except String` results; when the source mutates
  the object before raising, the operation returns the mutated state
  together with an `Option String` error, so partial mutation is
  observable exactly as in Python.
-/

namespace LabelBench

/-- Formats of label (`LabelType` enum of the source). -/
inductive LabelType where
  | MULTI_CLASS
  | MULTI_LABEL
deriving DecidableEq

/-- An embedding value as produced by a feature extractor: a single
matrix, or a Python tuple of two matrices (weak/strong views). -/
inductive Emb where
  | single (m : List (List ℚ))
  | paired (m1 m2 : List (List ℚ))
deriving DecidableEq

/-- First component of an embedding (`self.train_emb[0]` when the
embedding is a tuple, otherwise the embedding itself). -/
def Emb.first : Emb → List (List ℚ)
  | .single m => m
  | .paired m1 _ => m1

/-- A Python value that is either a plain value or a zero-argument
callable producing it; `callable(x)` in the source distinguishes the
two, and realization overwrites the field with the produced value. -/
inductive LazyVal (α : Type) where
  | value (v : α)
  | pending (f : Unit → α)

/-- Realize a lazy value (call the producer if the field is callable,
otherwise return the stored value). -/
def LazyVal.resolve {α : Type} : LazyVal α → α
  | .value v => v
  | .pending f => f ()

/-- A normalization-statistic field: either an already computed vector,
or a callable reducer (default `np.mean`/`np.std`) that the source
applies to the training embedding with `axis=0`. -/
inductive LazyStat where
  | value (v : List ℚ)
  | pending (f : List (List ℚ) → List ℚ)

/-- The `if callable(...)` logic of the source on a statistic field:
a still-callable reducer is applied to the training embedding matrix
(with `axis=0`), an already-stored vector is reused. -/
def LazyStat.resolveWith (st : LazyStat) (m : List (List ℚ)) : List ℚ :=
  match st with
  | .pending f => f m
  | .value v => v

/-- Result of `np.array(x)` where `x` is the labeled-index tracker:
either a genuine one-dimensional integer array, or — when the tracker
is still `None` — `np.array(None)`, a zero-dimensional object array
(which numpy constructs without raising). -/
inductive NpArr where
  | ofList (l : List Int)
  | objNone
deriving DecidableEq

/-- Elementwise sum of two vectors (numpy broadcast addition for equal
shapes). -/
def vecAdd (a b : List ℚ) : List ℚ := List.zipWith (· + ·) a b

/-- The default reducer `np.mean(m, axis=0)`: per-column mean of a
(rectangular) matrix. Used as a concrete instantiation of the reducer
parameters in witnesses. -/
def np_mean_axis0 : List (List ℚ) → List ℚ
  | [] => []
  | r :: rs => (rs.foldl vecAdd r).map (fun x => x / ((rs.length + 1 : Nat) : ℚ))

/-- Broadcast normalization `(m - mean) / std` of a matrix by per-column
statistics. -/
def norm_rows (m : List (List ℚ)) (mean std : List ℚ) : List (List ℚ) :=
  m.map (fun row => List.zipWith (fun x p => (x - p.1) / p.2) row (mean.zip std))

/-!
`TransformDataset` of `LabelBench/skeleton/dataset_skeleton.py`.
The wrapped base dataset is an indexable list of (input, label) pairs;
`dataset[item][:2]` and `x_orig, y = dataset[item]` coincide on
two-field items, which is the shape all claims use.
-/

structure TransformDataset (α β : Type) where
  dataset : List (α × β)
  __transform : Option (α → α)
  __strong_transform : Option (α → α)
  __target_transform : Option (β → β)
  __default_transform : Option (α → α)
  __default_target_transform : Option (β → β)
  ignore_metadata : Bool
  _return_indices : Bool

namespace TransformDataset

variable {α β : Type}

/-- Constructor `TransformDataset.__init__`: the default transforms are
captured from the constructor arguments, the strong transform starts
absent, and indices are not returned. -/
def init (dataset : List (α × β)) (transform : Option (α → α))
    (target_transform : Option (β → β)) (ignore_metadata : Bool) :
    TransformDataset α β :=
  ⟨dataset, transform, none, target_transform, transform, target_transform,
    ignore_metadata, false⟩

/-- Length of the wrapper (`__len__`): the length of the base dataset. -/
def length (t : TransformDataset α β) : Nat := t.dataset.length

/-- Item access `__getitem__` of the LabelBench copy.  The source binds
the raw input to `x_orig` and assigns `x` only inside
`if self.__transform:`; when no input transform is set, the later uses
of `x` (either `x = (x, xs)` or `return x, y`) hit an unbound local
variable, so the access raises rather than passing the input through.
The returned input is `Sum.inl` for a single (weak) view and `Sum.inr`
for a (weak, strong) pair; the optional `Nat` is the appended index. -/
def getitem (t : TransformDataset α β) (i : Nat) :
    Except String ((α ⊕ α × α) × β × Option Nat) :=
  match t.dataset.get? i with
  | none => .error "IndexError: index out of range"
  | some (x_orig, y0) =>
    match t.__transform with
    | none => .error "UnboundLocalError: local variable x referenced before assignment"
    | some f =>
      let x := f x_orig
      let y := match t.__target_transform with
        | some g => g y0
        | none => y0
      let xv : α ⊕ α × α := match t.__strong_transform with
        | some sf => .inr (x, sf x_orig)
        | none => .inl x
      .ok (xv, y, if t._return_indices then some i else none)

/-- Setter `set_transform`. -/
def set_transform (t : TransformDataset α β) (transform : α → α) :
    TransformDataset α β :=
  { t with __transform := some transform }

/-- Setter `set_strong_transform`. -/
def set_strong_transform (t : TransformDataset α β) (strong_transform : α → α) :
    TransformDataset α β :=
  { t with __strong_transform := some strong_transform }

/-- Setter `set_target_transform`. -/
def set_target_transform (t : TransformDataset α β) (target_transform : β → β) :
    TransformDataset α β :=
  { t with __target_transform := some target_transform }

/-- Reset `set_to_default_transform`: restores the transform captured at
construction. -/
def set_to_default_transform (t : TransformDataset α β) : TransformDataset α β :=
  { t with __transform := t.__default_transform }

/-- Reset `set_to_default_target_transform`. -/
def set_to_default_target_transform (t : TransformDataset α β) : TransformDataset α β :=
  { t with __target_transform := t.__default_target_transform }

end TransformDataset

/-!
`DatasetOnMemory` of `LabelBench/skeleton/dataset_skeleton.py`.  Its
input container `X` is, after normalization by `ALDataset`, one of:
a plain 2-d embedding array, a Python tuple of two 2-d arrays (the
train split in the weak/strong case), or — for a val/test split whose
embedding was a tuple — the result of broadcasting
`(tuple - mean) / std`, which numpy materializes as a single 3-d array
of shape `(2, n, d)` whose `len` along axis 0 is 2.
-/

inductive XVal where
  | arr (m : List (List ℚ))
  | tup (m1 m2 : List (List ℚ))
  | arr3 (m1 m2 : List (List ℚ))
deriving DecidableEq

/-- Python `len` of the input container: rows of a 2-d array, 2 for a
3-d array of shape `(2, n, d)`. The tuple case is never passed to
`len` by the source (the constructor checks the components instead). -/
def XVal.pyLen : XVal → Nat
  | .arr m => m.length
  | .tup m1 _ => m1.length
  | .arr3 _ _ => 2

structure DatasetOnMemory where
  X : XVal
  y : List Int
  n_class : Nat
  _return_indices : Bool
deriving DecidableEq

namespace DatasetOnMemory

/-- Constructor `DatasetOnMemory.__init__`: asserts the length
alignment of inputs and labels (both components when `X` is a tuple)
and raises the assertion message on mismatch. -/
def init (X : XVal) (y : List Int) (n_class : Nat) :
    Except String DatasetOnMemory :=
  match X with
  | .tup m1 m2 =>
    if m1.length = y.length ∧ m2.length = y.length then
      .ok ⟨X, y, n_class, false⟩
    else .error "X and y must have the same length."
  | .arr m =>
    if m.length = y.length then .ok ⟨X, y, n_class, false⟩
    else .error "X and y must have the same length."
  | .arr3 m1 m2 =>
    if (XVal.arr3 m1 m2).pyLen = y.length then .ok ⟨X, y, n_class, false⟩
    else .error "X and y must have the same length."

/-- Length `__len__`: the number of labels. -/
def length (d : DatasetOnMemory) : Nat := d.y.length

end DatasetOnMemory

/-!
`ALDataset` of `LabelBench/skeleton/dataset_skeleton.py`.  The three
transform-wrapped split datasets are external collaborators here: the
core consults them only through `len(self.train_dataset)` and by
passing them to the feature extractor, so the model keeps the training
split length and treats the extractor as a function of the split tag,
epoch and strong/weak flag.  Fields with the `__` prefix are the
name-mangled private attributes of the source.
-/

structure ALDataset where
  train_len : Nat
  label_type : LabelType
  num_classes : Nat
  classnames : List String
  train_emb : Option Emb
  val_emb : Option Emb
  test_emb : Option Emb
  __train_emb_mean : LazyStat
  __train_emb_std : LazyStat
  __labeled_idxs : Option (List Int)
  __train_labels : LazyVal (List Int)
  __val_labels : LazyVal (List Int)
  __test_labels : LazyVal (List Int)

namespace ALDataset

/-- Constructor `ALDataset.__init__`: embeddings and the labeled-index
tracker start absent; the normalization statistics start as the
(callable) reducers passed in, defaulting in the source to
`np.mean`/`np.std`. -/
def init (train_len : Nat) (train_labels val_labels test_labels : LazyVal (List Int))
    (label_type : LabelType) (num_classes : Nat) (classnames : List String)
    (train_emb_mean train_emb_std : List (List ℚ) → List ℚ) : ALDataset :=
  { train_len := train_len
    label_type := label_type
    num_classes := num_classes
    classnames := classnames
    train_emb := none
    val_emb := none
    test_emb := none
    __train_emb_mean := .pending train_emb_mean
    __train_emb_std := .pending train_emb_std
    __labeled_idxs := none
    __train_labels := train_labels
    __val_labels := val_labels
    __test_labels := test_labels }

/-- Method `update_embedding_dataset`: iterates over the splits in the
fixed order `["train", "val", "test"]`, storing each extractor result
into the corresponding `*_emb` attribute as it goes.  When the
extractor raises, the exception propagates but the attributes already
assigned keep their new values, so the operation returns the (possibly
partially updated) state together with the propagated error. -/
def update_embedding_dataset (s : ALDataset) (epoch : Nat)
    (get_feature : String → Nat → Bool → Except String Emb)
    (use_strong : Bool) : ALDataset × Option String :=
  match get_feature "train" epoch use_strong with
  | .error e => (s, some e)
  | .ok te =>
    let s1 := { s with train_emb := some te }
    match get_feature "val" epoch use_strong with
    | .error e => (s1, some e)
    | .ok ve =>
      let s2 := { s1 with val_emb := some ve }
      match get_feature "test" epoch use_strong with
      | .error e => (s2, some e)
      | .ok we => ({ s2 with test_emb := some we }, none)

/-- Method `update_labeled_idxs`: `np.array(new_idxs)` on first call,
`np.concatenate` (pure concatenation, no deduplication, no range
validation) afterwards. -/
def update_labeled_idxs (s : ALDataset) (new_idxs : List Int) : ALDataset :=
  match s.__labeled_idxs with
  | none => { s with __labeled_idxs := some new_idxs }
  | some l => { s with __labeled_idxs := some (l ++ new_idxs) }

/-- Method `num_labeled`: `len(self.__labeled_idxs)`; on an absent
tracker this is `len(None)`, which raises a `TypeError`. -/
def num_labeled (s : ALDataset) : Except String Nat :=
  match s.__labeled_idxs with
  | none => .error "TypeError: object of type NoneType has no len()"
  | some l => .ok l.length

/-- Method `labeled_idxs`: `np.array(self.__labeled_idxs)`.  On an
absent tracker numpy builds `np.array(None)`, a zero-dimensional
object array, without raising; otherwise the tracked indices are
copied into a fresh array. -/
def labeled_idxs (s : ALDataset) : Except String NpArr :=
  match s.__labeled_idxs with
  | none => .ok .objNone
  | some l => .ok (.ofList l)

/-- Method `unlabeled_idxs`: `set(range(len)) - set(labeled)` turned
back into an array.  Iterating the zero-dimensional `np.array(None)`
raises; the set difference itself is order-unspecified, modelled here
by one concrete enumeration (increasing order) of the complement. -/
def unlabeled_idxs (s : ALDataset) : Except String (List Int) :=
  match s.__labeled_idxs with
  | none => .error "TypeError: iteration over a 0-d array"
  | some l =>
    .ok (((List.range s.train_len).map (fun (n : Nat) => (n : Int))).filter (fun i => decide (¬ i ∈ l)))

/-- Method `get_embedding_datasets`: checks embedding initialization,
realizes lazy labels and (once) the normalization statistics, then
builds the three in-memory datasets of normalized embeddings.  The
realizations mutate the object before the `DatasetOnMemory` length
assertions can fire, so the mutated state is returned alongside the
result. -/
def get_embedding_datasets (s : ALDataset) :
    ALDataset × Except String (DatasetOnMemory × DatasetOnMemory × DatasetOnMemory) :=
  match s.train_emb, s.val_emb, s.test_emb with
  | some te, some ve, some we =>
    let tl := s.__train_labels.resolve
    let vl := s.__val_labels.resolve
    let wl := s.__test_labels.resolve
    let mean := s.__train_emb_mean.resolveWith te.first
    let std := s.__train_emb_std.resolveWith te.first
    let s' := { s with
      __train_labels := .value tl
      __val_labels := .value vl
      __test_labels := .value wl
      __train_emb_mean := .value mean
      __train_emb_std := .value std }
    let trainX : XVal := match te with
      | .single m => .arr (norm_rows m mean std)
      | .paired m1 m2 => .tup (norm_rows m1 mean std) (norm_rows m2 mean std)
    let valX : XVal := match ve with
      | .single m => .arr (norm_rows m mean std)
      | .paired m1 m2 => .arr3 (norm_rows m1 mean std) (norm_rows m2 mean std)
    let testX : XVal := match we with
      | .single m => .arr (norm_rows m mean std)
      | .paired m1 m2 => .arr3 (norm_rows m1 mean std) (norm_rows m2 mean std)
    (s', do
      let train_ds ← DatasetOnMemory.init trainX tl s.num_classes
      let val_ds ← DatasetOnMemory.init valX vl s.num_classes
      let test_ds ← DatasetOnMemory.init testX wl s.num_classes
      return (train_ds, val_ds, test_ds))
  | _, _, _ => (s, .error "Embedding is not initialized.")

/-- Method `get_embedding_dim`: `shape[1]` of the training embedding
(first component when paired); asserts initialization. -/
def get_embedding_dim (s : ALDataset) : Except String Nat :=
  match s.train_emb with
  | none => .error "Embedding is not initialized."
  | some e => .ok (e.first.headD []).length

end ALDataset

end LabelBench

namespace ALBench

/-!
`TransformDataset` of `ALBench/skeleton/dataset_skeleton.py`: the
near-duplicate copy without strong transforms or index returning.  Here
`__getitem__` unpacks the base item directly into `x, y`, so an unset
transform leaves the input unchanged.
-/

structure TransformDataset (α β : Type) where
  dataset : List (α × β)
  __transform : Option (α → α)
  __target_transform : Option (β → β)
  __default_transform : Option (α → α)
  __default_target_transform : Option (β → β)
  ignore_metadata : Bool

namespace TransformDataset

variable {α β : Type}

/-- Constructor `TransformDataset.__init__` (ALBench copy). -/
def init (dataset : List (α × β)) (transform : Option (α → α))
    (target_transform : Option (β → β)) (ignore_metadata : Bool) :
    TransformDataset α β :=
  ⟨dataset, transform, target_transform, transform, target_transform,
    ignore_metadata⟩

/-- Item access `__getitem__` of the ALBench copy: applies each
transform only if set, otherwise the corresponding component passes
through unchanged. -/
def getitem (t : TransformDataset α β) (i : Nat) : Except String (α × β) :=
  match t.dataset.get? i with
  | none => .error "IndexError: index out of range"
  | some (x0, y0) =>
    let x := match t.__transform with
      | some f => f x0
      | none => x0
    let y := match t.__target_transform with
      | some g => g y0
      | none => y0
    .ok (x, y)

end TransformDataset

/-!
Optimizer factory of `ALBench/trainer/trainer.py`.  A trainer
configuration is a string-keyed mapping; the keys the factory reads
are modelled as record fields, optional when the source guards the
access with `"key" in trainer_config`.  The built `optim_fn` closure is
represented by the data it would capture.
-/

/-- The optimizer-builder closure stored under `optim_fn`: which of the
three construction branches ran, with the hyperparameters captured. -/
inductive OptimFn where
  | adam (lr wd : ℚ)
  | adamBetas (lr : ℚ) (betas : ℚ × ℚ) (wd : ℚ)
  | sgd (lr wd : ℚ) (nesterov : Bool) (momentum : ℚ)
deriving DecidableEq

structure TrainerConfig where
  trainer_name : String
  optim_name : String
  lr : ℚ
  wd : Option ℚ
  betas : Option (ℚ × ℚ)
  nesterov : Option Bool
  momentum : Option ℚ
  optim_fn : Option OptimFn
deriving DecidableEq

/-- Python `trainer_config["trainer_name"].split("_")[0]`: the
characters before the first underscore (the whole string when no
underscore occurs). -/
def split_head (s : String) : String := ⟨s.data.takeWhile (fun c => c ≠ '_')⟩

/-- Function `get_optimizer_fn`: when the training method (the part of
`trainer_name` before the first underscore) is not `sklearn`, builds
the optimizer closure for `Adam` or `SGD` and stores it under
`optim_fn`; an unrecognized `optim_name` raises
`ValueError("%s optimizer is unknown" % ...)` before any entry is
added.  The sklearn path skips optimizer configuration entirely.  The
result pairs the (possibly updated) configuration with the propagated
error, mirroring the in-place dict mutation of the source. -/
def get_optimizer_fn (c : TrainerConfig) : TrainerConfig × Option String :=
  let train_method := split_head c.trainer_name
  if train_method ≠ "sklearn" then
    let wd := c.wd.getD 0
    if c.optim_name = "Adam" then
      let ofn := match c.betas with
        | none => OptimFn.adam c.lr wd
        | some bs => OptimFn.adamBetas c.lr bs wd
      ({ c with optim_fn := some ofn }, none)
    else if c.optim_name = "SGD" then
      let nesterov := c.nesterov.getD false
      let momentum := c.momentum.getD 0
      ({ c with optim_fn := some (OptimFn.sgd c.lr wd nesterov momentum) }, none)
    else
      (c, some (c.optim_name ++ " optimizer is unknown"))
  else (c, none)

end ALBench

namespace LabelBench

/-!
Aliasing model for `ALDataset.labeled_idxs`.  The functional model
above cannot express that `np.array(self.__labeled_idxs)` copies the
tracker, so this refinement keeps integer arrays in an explicit heap
of cells and represents the tracker and every array handed out as a
reference into it.  `np.array` on an existing array allocates a fresh
cell holding the same contents (numpy copies by default).
-/

structure Heap where
  cells : List (List Int)
deriving DecidableEq

/-- Contents of the cell a reference points to. -/
def Heap.read (h : Heap) (r : Nat) : List Int := h.cells.getD r []

/-- Allocate a fresh cell holding `v`; returns the new heap and the
reference to the cell. -/
def Heap.alloc (h : Heap) (v : List Int) : Heap × Nat :=
  (⟨h.cells ++ [v]⟩, h.cells.length)

/-- In-place update of one element of the array in cell `r`
(`a[i] = v` on the caller's side). -/
def Heap.write (h : Heap) (r i : Nat) (v : Int) : Heap :=
  ⟨h.cells.set r ((h.read r).set i v)⟩

/-- The labeled-index bookkeeping of `ALDataset`, with the tracker as a
heap reference. -/
structure ALDatasetRef where
  heap : Heap
  __labeled_idxs : Option Nat
  train_len : Nat

namespace ALDatasetRef

/-- Method `labeled_idxs` in the aliasing model: `np.array(tracker)`
allocates a fresh copy of the tracker cell and returns a reference to
the copy (the `None` tracker case returns no array reference). -/
def labeled_idxs (s : ALDatasetRef) : ALDatasetRef × Option Nat :=
  match s.__labeled_idxs with
  | none => (s, none)
  | some r =>
    let p := s.heap.alloc (s.heap.read r)
    ({ s with heap := p.1 }, some p.2)

/-- Method `num_labeled` in the aliasing model: length of the tracker
cell. -/
def num_labeled (s : ALDatasetRef) : Option Nat :=
  s.__labeled_idxs.map (fun r => (s.heap.read r).length)

/-- Contents of the tracker (what `labeled_idxs` copies out). -/
def labeled_list (s : ALDatasetRef) : Option (List Int) :=
  s.__labeled_idxs.map s.heap.read

/-- Method `unlabeled_idxs` in the aliasing model: complement of the
tracker cell's contents within the training range. -/
def unlabeled_idxs (s : ALDatasetRef) : Option (List Int) :=
  s.__labeled_idxs.map (fun r =>
    ((List.range s.train_len).map (fun (n : Nat) => (n : Int))).filter
      (fun i => decide (¬ i ∈ s.heap.read r)))

end ALDatasetRef

end LabelBench

/-!
Theorems.  Helper lemmas come first; each claim is settled by one
named theorem (with a witness when the theorem has hypotheses).
-/

namespace LabelBench

theorem norm_rows_length (m : List (List ℚ)) (mean std : List ℚ) :
    (norm_rows m mean std).length = m.length := List.length_map _ _

theorem DatasetOnMemory.init_error_msg (X : XVal) (y : List Int) (n : Nat) (e : String)
    (h : DatasetOnMemory.init X y n = .error e) :
    e = "X and y must have the same length." := by
  rcases X with m | ⟨m1, m2⟩ | ⟨m1, m2⟩ <;> simp only [DatasetOnMemory.init] at h <;>
    split at h <;> simp_all

theorem except_bind_error {A B : Type} (x : Except String A)
    (f : A → Except String B) (e : String) (h : (x >>= f) = .error e) :
    x = .error e ∨ ∃ a, x = .ok a ∧ f a = .error e := by
  cases x with
  | error e1 =>
    left
    simpa [Bind.bind, Except.bind] using h
  | ok a =>
    right
    exact ⟨a, rfl, by simpa [Bind.bind, Except.bind] using h⟩

/-- In the initialized case the only error `get_embedding_datasets` can
produce is the `DatasetOnMemory` length-assertion message. -/
theorem get_embedding_datasets_initialized_msg (s : ALDataset) (te ve we : Emb)
    (h1 : s.train_emb = some te) (h2 : s.val_emb = some ve)
    (h3 : s.test_emb = some we) (e : String)
    (he : (s.get_embedding_datasets).2 = .error e) :
    e = "X and y must have the same length." := by
  simp only [ALDataset.get_embedding_datasets, h1, h2, h3] at he
  rcases except_bind_error _ _ _ he with hx | ⟨a, _, he2⟩
  · exact DatasetOnMemory.init_error_msg _ _ _ _ hx
  rcases except_bind_error _ _ _ he2 with hx | ⟨b, _, he3⟩
  · exact DatasetOnMemory.init_error_msg _ _ _ _ hx
  rcases except_bind_error _ _ _ he3 with hx | ⟨c, _, he4⟩
  · exact DatasetOnMemory.init_error_msg _ _ _ _ hx
  · simp [pure, Except.pure] at he4

/-- A fully successful `update_embedding_dataset` stores the three
extractor results and propagates no error. -/
theorem update_embedding_success (s : ALDataset) (epoch : Nat)
    (get_feature : String → Nat → Bool → Except String Emb) (use_strong : Bool)
    (a b c : Emb)
    (h1 : get_feature "train" epoch use_strong = .ok a)
    (h2 : get_feature "val" epoch use_strong = .ok b)
    (h3 : get_feature "test" epoch use_strong = .ok c) :
    s.update_embedding_dataset epoch get_feature use_strong =
      ({ s with train_emb := some a, val_emb := some b, test_emb := some c },
        none) := by
  simp [ALDataset.update_embedding_dataset, h1, h2, h3]

/-- State left behind by `get_embedding_datasets` in the initialized
case: labels realized, statistics resolved against the (first
component of the) current training embedding. -/
theorem get_embedding_datasets_state (s : ALDataset) (te ve we : Emb)
    (h1 : s.train_emb = some te) (h2 : s.val_emb = some ve)
    (h3 : s.test_emb = some we) :
    (s.get_embedding_datasets).1 = { s with
      __train_labels := .value s.__train_labels.resolve
      __val_labels := .value s.__val_labels.resolve
      __test_labels := .value s.__test_labels.resolve
      __train_emb_mean := .value (s.__train_emb_mean.resolveWith te.first)
      __train_emb_std := .value (s.__train_emb_std.resolveWith te.first) } := by
  simp only [ALDataset.get_embedding_datasets, h1, h2, h3]

/-- C3: `update_embedding_dataset` walks the splits in the fixed order
train, val, test with no transactional guarantee: when the extractor
succeeds on train and fails on val, the returned state has `train_emb`
already overwritten while `val_emb` and `test_emb` keep their previous
values, and the val error propagates. -/
theorem update_embedding_partial_failure (s : LabelBench.ALDataset) (epoch : Nat)
    (get_feature : String → Nat → Bool → Except String Emb) (use_strong : Bool)
    (te : Emb) (err : String)
    (htr : get_feature "train" epoch use_strong = .ok te)
    (hv : get_feature "val" epoch use_strong = .error err) :
    s.update_embedding_dataset epoch get_feature use_strong =
      ({ s with train_emb := some te }, some err) ∧
    (s.update_embedding_dataset epoch get_feature use_strong).1.val_emb = s.val_emb ∧
    (s.update_embedding_dataset epoch get_feature use_strong).1.test_emb = s.test_emb := by
  refine ⟨?_, ?_, ?_⟩ <;> simp [ALDataset.update_embedding_dataset, htr, hv]

/-- Witness for C3 at a concrete dataset and extractor: the extractor
succeeds on train with embedding `[[1, 2]]` and fails on val. -/
theorem update_embedding_partial_failure_witness :
    (ALDataset.init 4 (.value [0]) (.value [1]) (.value [2]) .MULTI_CLASS 2
        ["c0", "c1"] np_mean_axis0 np_mean_axis0).update_embedding_dataset 0
        (fun sp _ _ => if sp = "train" then .ok (.single [[1, 2]])
          else .error "extractor failed on val") false =
      ({ ALDataset.init 4 (.value [0]) (.value [1]) (.value [2]) .MULTI_CLASS 2
          ["c0", "c1"] np_mean_axis0 np_mean_axis0 with
            train_emb := some (.single [[1, 2]]) },
        some "extractor failed on val") ∧
    ((ALDataset.init 4 (.value [0]) (.value [1]) (.value [2]) .MULTI_CLASS 2
        ["c0", "c1"] np_mean_axis0 np_mean_axis0).update_embedding_dataset 0
        (fun sp _ _ => if sp = "train" then .ok (.single [[1, 2]])
          else .error "extractor failed on val") false).1.val_emb = none ∧
    ((ALDataset.init 4 (.value [0]) (.value [1]) (.value [2]) .MULTI_CLASS 2
        ["c0", "c1"] np_mean_axis0 np_mean_axis0).update_embedding_dataset 0
        (fun sp _ _ => if sp = "train" then .ok (.single [[1, 2]])
          else .error "extractor failed on val") false).1.test_emb = none :=
  update_embedding_partial_failure _ 0 _ false _ _ rfl rfl

/-- C4: labeled-index tracking is pure concatenation in chronological
order: on a dataset with no prior labeling, `update_labeled_idxs [a, b]`
then `update_labeled_idxs [c]` gives `labeled_idxs = [a, b, c]` and
`num_labeled = 3`, for arbitrary integer indices (repeats and
out-of-range values included); in general an update appends to the
existing tracker with no deduplication. -/
theorem update_labeled_idxs_appends :
    (∀ (s : ALDataset) (a b c : Int), s.__labeled_idxs = none →
      ((s.update_labeled_idxs [a, b]).update_labeled_idxs [c]).labeled_idxs =
          .ok (.ofList [a, b, c]) ∧
      ((s.update_labeled_idxs [a, b]).update_labeled_idxs [c]).num_labeled = .ok 3) ∧
    (∀ (s : ALDataset) (l new_idxs : List Int), s.__labeled_idxs = some l →
      (s.update_labeled_idxs new_idxs).__labeled_idxs = some (l ++ new_idxs)) := by
  constructor
  · intro s a b c h
    simp [ALDataset.update_labeled_idxs, ALDataset.labeled_idxs,
      ALDataset.num_labeled, h]
  · intro s l new_idxs h
    simp [ALDataset.update_labeled_idxs, h]

/-- Witness for C4 on a fresh dataset with the repeated index 5 (the
concrete scenario of the spec): the tracker reads `[5, 7, 5]`. -/
theorem update_labeled_idxs_appends_witness :
    (((ALDataset.init 100 (.value []) (.value []) (.value []) .MULTI_CLASS 10 []
        np_mean_axis0 np_mean_axis0).update_labeled_idxs
          [5, 7]).update_labeled_idxs [5]).labeled_idxs =
      .ok (.ofList [5, 7, 5]) ∧
    (((ALDataset.init 100 (.value []) (.value []) (.value []) .MULTI_CLASS 10 []
        np_mean_axis0 np_mean_axis0).update_labeled_idxs
          [5, 7]).update_labeled_idxs [5]).num_labeled = .ok 3 :=
  update_labeled_idxs_appends.1 _ 5 7 5 rfl

/-- C7, as the code behaves: with the tracker still absent,
`num_labeled` raises (`len(None)` is a `TypeError`, not a descriptive
"not initialized" condition), while `labeled_idxs` does not fail at
all: `np.array(None)` is a degenerate zero-dimensional object array,
not an index array or an empty value. -/
theorem uninit_tracker_behavior (s : ALDataset) (h : s.__labeled_idxs = none) :
    s.num_labeled = .error "TypeError: object of type NoneType has no len()" ∧
    s.labeled_idxs = .ok .objNone := by
  simp [ALDataset.num_labeled, ALDataset.labeled_idxs, h]

/-- Witness for the amended C7 at a freshly constructed dataset. -/
theorem uninit_tracker_behavior_witness :
    (ALDataset.init 3 (.value []) (.value []) (.value []) .MULTI_LABEL 1 ["x"]
        np_mean_axis0 np_mean_axis0).num_labeled =
      .error "TypeError: object of type NoneType has no len()" ∧
    (ALDataset.init 3 (.value []) (.value []) (.value []) .MULTI_LABEL 1 ["x"]
        np_mean_axis0 np_mean_axis0).labeled_idxs = .ok .objNone :=
  uninit_tracker_behavior _ rfl

/-- Counterexample to C7 as stated: on a dataset on which
`update_labeled_idxs` was never called, `labeled_idxs` does not fail —
it returns successfully with the zero-dimensional `np.array(None)`. -/
theorem labeled_idxs_uninit_no_failure :
    (ALDataset.init 3 (.value []) (.value []) (.value []) .MULTI_LABEL 1 ["x"]
        np_mean_axis0 np_mean_axis0).labeled_idxs = .ok .objNone := rfl

/-- C6, as the code behaves: in the LabelBench copy of
`TransformDataset`, an unset input transform is NOT the identity —
`__getitem__` binds the raw input to `x_orig` and assigns `x` only
under `if self.__transform:`, so with no transform set (and no strong
transform) the access raises an unbound-local error instead of
returning the base input unchanged.  The ALBench near-duplicate of the
same method unpacks into `x` directly and does return the input
unchanged, which is the behavior the claim (and the spec) describes. -/
theorem getitem_no_transform_unbound :
    TransformDataset.getitem
        (TransformDataset.init [((1 : Int), (2 : Int))] none none false) 0 =
      .error "UnboundLocalError: local variable x referenced before assignment" ∧
    ALBench.TransformDataset.getitem
        (ALBench.TransformDataset.init [((1 : Int), (2 : Int))] none none false) 0 =
      .ok (1, 2) :=
  ⟨rfl, rfl⟩

/-- C8: setting a custom transform and then resetting to the default
restores the wrapper to exactly the state it had when constructed, so
`getitem` results coincide with those of a wrapper on which
`set_transform` was never called; the same holds for the target
transform. -/
theorem set_to_default_restores {α β : Type} (base : List (α × β)) (d : α → α)
    (dt : Option (β → β)) (ig : Bool) (f : α → α) (g : β → β) (i : Nat) :
    (((TransformDataset.init base (some d) dt ig).set_transform
          f).set_to_default_transform =
        TransformDataset.init base (some d) dt ig ∧
      (((TransformDataset.init base (some d) dt ig).set_transform
          f).set_to_default_transform).getitem i =
        (TransformDataset.init base (some d) dt ig).getitem i) ∧
    (((TransformDataset.init base (some d) dt ig).set_target_transform
          g).set_to_default_target_transform =
        TransformDataset.init base (some d) dt ig ∧
      (((TransformDataset.init base (some d) dt ig).set_target_transform
          g).set_to_default_target_transform).getitem i =
        (TransformDataset.init base (some d) dt ig).getitem i) :=
  ⟨⟨rfl, rfl⟩, ⟨rfl, rfl⟩⟩

end LabelBench

namespace ALBench

/-- C9, amended: for a configuration whose training method (the part
of `trainer_name` before the first underscore) is not `sklearn`, an
`optim_name` that is neither `Adam` nor `SGD` makes `get_optimizer_fn`
raise a `ValueError` whose message names the unrecognized optimizer,
and the configuration gains no `optim_fn` entry. -/
theorem get_optimizer_fn_unknown_rejected (c : TrainerConfig)
    (hs : split_head c.trainer_name ≠ "sklearn")
    (ha : c.optim_name ≠ "Adam") (hg : c.optim_name ≠ "SGD") :
    get_optimizer_fn c = (c, some (c.optim_name ++ " optimizer is unknown")) ∧
    (get_optimizer_fn c).1.optim_fn = c.optim_fn := by
  constructor <;> simp [get_optimizer_fn, hs, ha, hg]

/-- Witness for the amended C9 at a concrete non-sklearn configuration
with the unknown optimizer name `AdaGrad`. -/
theorem get_optimizer_fn_unknown_rejected_witness :
    get_optimizer_fn
        { trainer_name := "mlp_classifier", optim_name := "AdaGrad", lr := 2,
          wd := none, betas := none, nesterov := none, momentum := none,
          optim_fn := none } =
      ({ trainer_name := "mlp_classifier", optim_name := "AdaGrad", lr := 2,
          wd := none, betas := none, nesterov := none, momentum := none,
          optim_fn := none },
        some "AdaGrad optimizer is unknown") ∧
    (get_optimizer_fn
        { trainer_name := "mlp_classifier", optim_name := "AdaGrad", lr := 2,
          wd := none, betas := none, nesterov := none, momentum := none,
          optim_fn := none }).1.optim_fn = none :=
  get_optimizer_fn_unknown_rejected _ (by decide) (by decide) (by decide)

/-- Counterexample to C9 as stated: a configuration whose
`trainer_name` starts with `sklearn` skips optimizer configuration
entirely, so an unrecognized `optim_name` produces no error at all. -/
theorem get_optimizer_fn_sklearn_skips :
    ({ trainer_name := "sklearn_svm", optim_name := "RMSProp", lr := 1,
        wd := none, betas := none, nesterov := none, momentum := none,
        optim_fn := none } : TrainerConfig).optim_name ≠ "Adam" ∧
    ({ trainer_name := "sklearn_svm", optim_name := "RMSProp", lr := 1,
        wd := none, betas := none, nesterov := none, momentum := none,
        optim_fn := none } : TrainerConfig).optim_name ≠ "SGD" ∧
    get_optimizer_fn
        { trainer_name := "sklearn_svm", optim_name := "RMSProp", lr := 1,
          wd := none, betas := none, nesterov := none, momentum := none,
          optim_fn := none } =
      ({ trainer_name := "sklearn_svm", optim_name := "RMSProp", lr := 1,
          wd := none, betas := none, nesterov := none, momentum := none,
          optim_fn := none },
        none) :=
  ⟨by decide, by decide, rfl⟩

end ALBench

namespace LabelBench

/-- C5: with a (non-empty) tracker in place, `unlabeled_idxs` succeeds
and returns, as a set, exactly `{0, …, train_len - 1}` minus the
labeled indices, with no duplicates, whatever the tracker holds
(repeats included); only its order is left unspecified by the
source's use of a Python set difference. -/
theorem unlabeled_idxs_complement (s : ALDataset) (l : List Int)
    (h : s.__labeled_idxs = some l) (_hne : l ≠ []) :
    ∃ u : List Int, s.unlabeled_idxs = .ok u ∧ u.Nodup ∧
      ∀ i : Int, i ∈ u ↔ 0 ≤ i ∧ i < (s.train_len : Int) ∧ i ∉ l := by
  refine ⟨((List.range s.train_len).map (fun (n : Nat) => (n : Int))).filter
      (fun i => decide (¬ i ∈ l)), ?_, ?_, ?_⟩
  · simp [ALDataset.unlabeled_idxs, h]
  · exact List.Nodup.filter _
      (List.Nodup.map (fun a b hab => by omega) (List.nodup_range _))
  · intro i
    simp only [List.mem_filter, List.mem_map, List.mem_range, decide_eq_true_eq]
    constructor
    · rintro ⟨⟨k, hk, rfl⟩, hni⟩
      exact ⟨by omega, by omega, hni⟩
    · rintro ⟨h0, hlt, hni⟩
      exact ⟨⟨i.toNat, by omega, by omega⟩, hni⟩

/-- Witness for C5: training pool of size 10, tracker `[5, 7, 5]` with
a repeated index; the complement is duplicate-free and holds exactly
the in-range indices other than 5 and 7. -/
theorem unlabeled_idxs_complement_witness :
    ∃ u : List Int,
      ((ALDataset.init 10 (.value []) (.value []) (.value []) .MULTI_CLASS 3 []
          np_mean_axis0 np_mean_axis0).update_labeled_idxs
            [5, 7, 5]).unlabeled_idxs = .ok u ∧
      u.Nodup ∧
      ∀ i : Int, i ∈ u ↔ 0 ≤ i ∧ i < (10 : Int) ∧ i ∉ ([5, 7, 5] : List Int) :=
  unlabeled_idxs_complement _ [5, 7, 5] rfl (by decide)

/-- C2: the "uninitialized embedding" failure of
`get_embedding_datasets` happens exactly when at least one of
`train_emb`, `val_emb`, `test_emb` is absent; in particular a freshly
constructed `ALDataset` fails that way, and after one fully completed
`update_embedding_dataset` (with extractor output row-aligned to the
labels) the call succeeds with three in-memory datasets. -/
theorem get_embedding_datasets_uninit :
    (∀ s : ALDataset,
      (s.get_embedding_datasets).2 = .error "Embedding is not initialized." ↔
        (s.train_emb = none ∨ s.val_emb = none ∨ s.test_emb = none)) ∧
    (∀ (train_len : Nat) (tl vl wl : LazyVal (List Int)) (lt : LabelType)
        (nc : Nat) (cn : List String) (fm fs : List (List ℚ) → List ℚ),
      ((ALDataset.init train_len tl vl wl lt nc cn fm fs).get_embedding_datasets).2 =
        .error "Embedding is not initialized.") ∧
    (∀ (s : ALDataset) (epoch : Nat)
        (get_feature : String → Nat → Bool → Except String Emb) (use_strong : Bool)
        (mt mv mw : List (List ℚ)),
      get_feature "train" epoch use_strong = .ok (.single mt) →
      get_feature "val" epoch use_strong = .ok (.single mv) →
      get_feature "test" epoch use_strong = .ok (.single mw) →
      mt.length = s.__train_labels.resolve.length →
      mv.length = s.__val_labels.resolve.length →
      mw.length = s.__test_labels.resolve.length →
      (s.update_embedding_dataset epoch get_feature use_strong).2 = none ∧
      ∃ dt dv dw,
        (((s.update_embedding_dataset epoch get_feature use_strong).1).get_embedding_datasets).2 =
          .ok (dt, dv, dw)) := by
  refine ⟨?_, ?_, ?_⟩
  · intro s
    constructor
    · intro hl
      rcases htr : s.train_emb with _ | te
      · exact Or.inl rfl
      rcases hv : s.val_emb with _ | ve
      · exact Or.inr (Or.inl rfl)
      rcases hw : s.test_emb with _ | we
      · exact Or.inr (Or.inr rfl)
      have hmsg := get_embedding_datasets_initialized_msg s te ve we htr hv hw _ hl
      exact absurd hmsg (by decide)
    · intro hn
      rcases hn with h | h | h
      · simp [ALDataset.get_embedding_datasets, h]
      · cases htr : s.train_emb <;>
          simp [ALDataset.get_embedding_datasets, htr, h]
      · cases htr : s.train_emb <;> cases hv : s.val_emb <;>
          simp [ALDataset.get_embedding_datasets, htr, hv, h]
  · intro train_len tl vl wl lt nc cn fm fs
    rfl
  · intro s epoch get_feature use_strong mt mv mw h1 h2 h3 l1 l2 l3
    refine ⟨by simp [ALDataset.update_embedding_dataset, h1, h2, h3], ?_⟩
    rw [update_embedding_success s epoch get_feature use_strong _ _ _ h1 h2 h3]
    simp [ALDataset.get_embedding_datasets, DatasetOnMemory.init,
      norm_rows_length, l1, l2, l3]
    exact ⟨_, _, _, rfl⟩

/-- Witness for C2 at a concrete dataset: fresh construction fails with
the uninitialized-embedding error; after a completed update with
row-aligned single embeddings the call returns three datasets. -/
theorem get_embedding_datasets_uninit_witness :
    ((ALDataset.init 2 (.value [0, 1]) (.value [0]) (.value [1]) .MULTI_CLASS 2
        ["c0", "c1"] np_mean_axis0 np_mean_axis0).get_embedding_datasets).2 =
      .error "Embedding is not initialized." ∧
    ((ALDataset.init 2 (.value [0, 1]) (.value [0]) (.value [1]) .MULTI_CLASS 2
        ["c0", "c1"] np_mean_axis0 np_mean_axis0).update_embedding_dataset 0
        (fun sp _ _ =>
          if sp = "train" then .ok (.single [[1, 3], [5, 7]])
          else if sp = "val" then .ok (.single [[0, 2]])
          else .ok (.single [[4, 6]])) false).2 = none ∧
    (∃ dt dv dw,
      ((((ALDataset.init 2 (.value [0, 1]) (.value [0]) (.value [1]) .MULTI_CLASS 2
          ["c0", "c1"] np_mean_axis0 np_mean_axis0).update_embedding_dataset 0
          (fun sp _ _ =>
            if sp = "train" then .ok (.single [[1, 3], [5, 7]])
            else if sp = "val" then .ok (.single [[0, 2]])
            else .ok (.single [[4, 6]])) false).1).get_embedding_datasets).2 =
        .ok (dt, dv, dw)) := by
  refine ⟨get_embedding_datasets_uninit.2.1 2 (.value [0, 1]) (.value [0])
    (.value [1]) .MULTI_CLASS 2 ["c0", "c1"] np_mean_axis0 np_mean_axis0, ?_, ?_⟩
  · exact (get_embedding_datasets_uninit.2.2
      (ALDataset.init 2 (.value [0, 1]) (.value [0]) (.value [1]) .MULTI_CLASS 2
        ["c0", "c1"] np_mean_axis0 np_mean_axis0) 0
      (fun sp _ _ =>
        if sp = "train" then .ok (.single [[1, 3], [5, 7]])
        else if sp = "val" then .ok (.single [[0, 2]])
        else .ok (.single [[4, 6]])) false [[1, 3], [5, 7]] [[0, 2]]
      [[4, 6]] rfl rfl rfl rfl rfl rfl).1
  · exact (get_embedding_datasets_uninit.2.2
      (ALDataset.init 2 (.value [0, 1]) (.value [0]) (.value [1]) .MULTI_CLASS 2
        ["c0", "c1"] np_mean_axis0 np_mean_axis0) 0
      (fun sp _ _ =>
        if sp = "train" then .ok (.single [[1, 3], [5, 7]])
        else if sp = "val" then .ok (.single [[0, 2]])
        else .ok (.single [[4, 6]])) false [[1, 3], [5, 7]] [[0, 2]]
      [[4, 6]] rfl rfl rfl rfl rfl rfl).2

end LabelBench

namespace LabelBench

/-- Field values after a fully successful `update_embedding_dataset`:
the embeddings are replaced, the statistic fields are untouched. -/
theorem update_embedding_fields (s : ALDataset) (epoch : Nat)
    (get_feature : String → Nat → Bool → Except String Emb) (use_strong : Bool)
    (a b c : Emb)
    (h1 : get_feature "train" epoch use_strong = .ok a)
    (h2 : get_feature "val" epoch use_strong = .ok b)
    (h3 : get_feature "test" epoch use_strong = .ok c) :
    (s.update_embedding_dataset epoch get_feature use_strong).1.train_emb = some a ∧
    (s.update_embedding_dataset epoch get_feature use_strong).1.val_emb = some b ∧
    (s.update_embedding_dataset epoch get_feature use_strong).1.test_emb = some c ∧
    (s.update_embedding_dataset epoch get_feature use_strong).1.__train_emb_mean =
      s.__train_emb_mean ∧
    (s.update_embedding_dataset epoch get_feature use_strong).1.__train_emb_std =
      s.__train_emb_std := by
  rw [update_embedding_success s epoch get_feature use_strong a b c h1 h2 h3]
  exact ⟨rfl, rfl, rfl, rfl, rfl⟩

/-- Field values after `get_embedding_datasets` in the initialized
case: embeddings untouched, statistics resolved against the first
component of the training embedding. -/
theorem get_embedding_fields (s : ALDataset) (te ve we : Emb)
    (h1 : s.train_emb = some te) (h2 : s.val_emb = some ve)
    (h3 : s.test_emb = some we) :
    (s.get_embedding_datasets).1.train_emb = s.train_emb ∧
    (s.get_embedding_datasets).1.val_emb = s.val_emb ∧
    (s.get_embedding_datasets).1.test_emb = s.test_emb ∧
    (s.get_embedding_datasets).1.__train_emb_mean =
      .value (s.__train_emb_mean.resolveWith te.first) ∧
    (s.get_embedding_datasets).1.__train_emb_std =
      .value (s.__train_emb_std.resolveWith te.first) := by
  rw [get_embedding_datasets_state s te ve we h1 h2 h3]
  exact ⟨rfl, rfl, rfl, rfl, rfl⟩

/-- C1: the normalization statistics are computed exactly once.  Before
the first `get_embedding_datasets` call they are still the pending
reducers; that call resolves them against the current training
embedding (its first component) and stores the resulting vectors; a
later `update_embedding_dataset` that replaces all three embeddings
leaves them untouched, and a second `get_embedding_datasets` call
reuses the frozen vectors instead of recomputing them from the new
training embedding. -/
theorem norm_stats_frozen (s : ALDataset) (e1 e2 : Nat)
    (ext1 ext2 : String → Nat → Bool → Except String Emb) (us1 us2 : Bool)
    (f g : List (List ℚ) → List ℚ) (a b c a2 b2 c2 : Emb)
    (hm : s.__train_emb_mean = .pending f)
    (hsd : s.__train_emb_std = .pending g)
    (h1t : ext1 "train" e1 us1 = .ok a) (h1v : ext1 "val" e1 us1 = .ok b)
    (h1w : ext1 "test" e1 us1 = .ok c)
    (h2t : ext2 "train" e2 us2 = .ok a2) (h2v : ext2 "val" e2 us2 = .ok b2)
    (h2w : ext2 "test" e2 us2 = .ok c2) :
    let s1 := (s.update_embedding_dataset e1 ext1 us1).1
    let s2 := (s1.get_embedding_datasets).1
    let s3 := (s2.update_embedding_dataset e2 ext2 us2).1
    let s4 := (s3.get_embedding_datasets).1
    s1.__train_emb_mean = .pending f ∧ s1.__train_emb_std = .pending g ∧
    s2.__train_emb_mean = .value (f a.first) ∧
    s2.__train_emb_std = .value (g a.first) ∧
    s3.train_emb = some a2 ∧ s3.__train_emb_mean = .value (f a.first) ∧
    s4.__train_emb_mean = .value (f a.first) ∧
    s4.__train_emb_std = .value (g a.first) := by
  dsimp only
  obtain ⟨u1t, u1v, u1w, u1m, u1s⟩ :=
    update_embedding_fields s e1 ext1 us1 a b c h1t h1v h1w
  set s1 := (s.update_embedding_dataset e1 ext1 us1).1 with hs1
  obtain ⟨g1t, g1v, g1w, g1m, g1s⟩ := get_embedding_fields s1 a b c u1t u1v u1w
  set s2 := (s1.get_embedding_datasets).1 with hs2
  obtain ⟨u2t, u2v, u2w, u2m, u2s⟩ :=
    update_embedding_fields s2 e2 ext2 us2 a2 b2 c2 h2t h2v h2w
  set s3 := (s2.update_embedding_dataset e2 ext2 us2).1 with hs3
  obtain ⟨g2t, g2v, g2w, g2m, g2s⟩ := get_embedding_fields s3 a2 b2 c2 u2t u2v u2w
  set s4 := (s3.get_embedding_datasets).1 with hs4
  refine ⟨?_, ?_, ?_, ?_, ?_, ?_, ?_, ?_⟩ <;>
    simp only [g2m, g2s, u2t, u2m, u2s, g1m, g1s, u1m, u1s, hm, hsd,
      LazyStat.resolveWith]

/-- Witness for C1 on a concrete run: pool of two points with training
embedding `[[1, 3], [5, 7]]` in the first round and `[[9, 9], [11, 11]]`
in the second; the frozen mean stays `np.mean` of the first-round
embedding, namely `[3, 5]`. -/
theorem norm_stats_frozen_witness :
    (let s := ALDataset.init 2 (.value [0, 1]) (.value [0]) (.value [1])
      .MULTI_CLASS 2 ["c0", "c1"] np_mean_axis0 np_mean_axis0
    let ext1 : String → Nat → Bool → Except String Emb := fun sp _ _ =>
      if sp = "train" then .ok (.single [[1, 3], [5, 7]])
      else if sp = "val" then .ok (.single [[0, 2]])
      else .ok (.single [[4, 6]])
    let ext2 : String → Nat → Bool → Except String Emb := fun sp _ _ =>
      if sp = "train" then .ok (.single [[9, 9], [11, 11]])
      else if sp = "val" then .ok (.single [[1, 1]])
      else .ok (.single [[2, 2]])
    let s1 := (s.update_embedding_dataset 0 ext1 false).1
    let s2 := (s1.get_embedding_datasets).1
    let s3 := (s2.update_embedding_dataset 1 ext2 false).1
    let s4 := (s3.get_embedding_datasets).1
    s1.__train_emb_mean = .pending np_mean_axis0 ∧
    s1.__train_emb_std = .pending np_mean_axis0 ∧
    s2.__train_emb_mean = .value (np_mean_axis0 [[1, 3], [5, 7]]) ∧
    s2.__train_emb_std = .value (np_mean_axis0 [[1, 3], [5, 7]]) ∧
    s3.train_emb = some (.single [[9, 9], [11, 11]]) ∧
    s3.__train_emb_mean = .value (np_mean_axis0 [[1, 3], [5, 7]]) ∧
    s4.__train_emb_mean = .value (np_mean_axis0 [[1, 3], [5, 7]]) ∧
    s4.__train_emb_std = .value (np_mean_axis0 [[1, 3], [5, 7]])) ∧
    np_mean_axis0 [[1, 3], [5, 7]] = [3, 5] :=
  ⟨norm_stats_frozen _ 0 1 _ _ false false np_mean_axis0 np_mean_axis0
      (.single [[1, 3], [5, 7]]) (.single [[0, 2]]) (.single [[4, 6]])
      (.single [[9, 9], [11, 11]]) (.single [[1, 1]]) (.single [[2, 2]])
      rfl rfl rfl rfl rfl rfl rfl rfl,
    by simp [np_mean_axis0, vecAdd]; norm_num⟩

theorem Heap.read_alloc_new (h : Heap) (v : List Int) :
    (h.alloc v).1.read (h.alloc v).2 = v := by
  simp only [Heap.alloc, Heap.read]
  rw [List.getD_append_right _ _ _ _ (le_refl _)]
  simp

theorem Heap.read_alloc_old (h : Heap) (v : List Int) (r : Nat)
    (hr : r < h.cells.length) : (h.alloc v).1.read r = h.read r := by
  simp only [Heap.alloc, Heap.read]
  rw [List.getD_append _ _ _ _ hr]

theorem Heap.read_write_other (h : Heap) (r1 r2 i : Nat) (v : Int)
    (hne : r2 ≠ r1) : (h.write r1 i v).read r2 = h.read r2 := by
  simp [Heap.write, Heap.read, List.getD_eq_getElem?_getD,
    List.getElem?_set_ne (by omega : r1 ≠ r2)]

/-- C10: `labeled_idxs` hands out a reference to a freshly allocated
copy of the tracker; writing through the returned reference leaves the
dataset's own tracker cell untouched, so `num_labeled`, the tracked
index list and `unlabeled_idxs` afterwards are what they were before
the mutation. -/
theorem labeled_idxs_fresh_copy (s : ALDatasetRef) (r : Nat)
    (h : s.__labeled_idxs = some r) (hr : r < s.heap.cells.length) :
    ∃ r', (s.labeled_idxs).2 = some r' ∧ r' ≠ r ∧
      (s.labeled_idxs).1.heap.read r' = s.heap.read r ∧
      ∀ (i : Nat) (v : Int),
        ({ (s.labeled_idxs).1 with
            heap := (s.labeled_idxs).1.heap.write r' i v } : ALDatasetRef).num_labeled =
          s.num_labeled ∧
        ({ (s.labeled_idxs).1 with
            heap := (s.labeled_idxs).1.heap.write r' i v } : ALDatasetRef).labeled_list =
          s.labeled_list ∧
        ({ (s.labeled_idxs).1 with
            heap := (s.labeled_idxs).1.heap.write r' i v } : ALDatasetRef).unlabeled_idxs =
          s.unlabeled_idxs := by
  refine ⟨s.heap.cells.length, ?_, by omega, ?_, ?_⟩
  · simp [ALDatasetRef.labeled_idxs, h, Heap.alloc]
  · simp only [ALDatasetRef.labeled_idxs, h]
    exact Heap.read_alloc_new _ _
  · intro i v
    have hread : ((s.heap.alloc (s.heap.read r)).1.write s.heap.cells.length i v).read r =
        s.heap.read r := by
      rw [Heap.read_write_other _ _ _ _ _ (by omega)]
      exact Heap.read_alloc_old _ _ _ hr
    refine ⟨?_, ?_, ?_⟩ <;>
      simp [ALDatasetRef.num_labeled, ALDatasetRef.labeled_list,
        ALDatasetRef.unlabeled_idxs, ALDatasetRef.labeled_idxs, h, hread]

/-- Witness for C10 on a one-cell heap: tracker cell 0 holds
`[4, 0, 2]`; the copy lands in a fresh cell and overwriting any of its
entries leaves every tracker query unchanged. -/
theorem labeled_idxs_fresh_copy_witness :
    ∃ r', ((⟨⟨[[4, 0, 2]]⟩, some 0, 5⟩ : ALDatasetRef).labeled_idxs).2 = some r' ∧
      r' ≠ 0 ∧
      ((⟨⟨[[4, 0, 2]]⟩, some 0, 5⟩ : ALDatasetRef).labeled_idxs).1.heap.read r' =
        (⟨⟨[[4, 0, 2]]⟩, some 0, 5⟩ : ALDatasetRef).heap.read 0 ∧
      ∀ (i : Nat) (v : Int),
        ({ ((⟨⟨[[4, 0, 2]]⟩, some 0, 5⟩ : ALDatasetRef).labeled_idxs).1 with
            heap := ((⟨⟨[[4, 0, 2]]⟩, some 0, 5⟩ : ALDatasetRef).labeled_idxs).1.heap.write
              r' i v } : ALDatasetRef).num_labeled =
          (⟨⟨[[4, 0, 2]]⟩, some 0, 5⟩ : ALDatasetRef).num_labeled ∧
        ({ ((⟨⟨[[4, 0, 2]]⟩, some 0, 5⟩ : ALDatasetRef).labeled_idxs).1 with
            heap := ((⟨⟨[[4, 0, 2]]⟩, some 0, 5⟩ : ALDatasetRef).labeled_idxs).1.heap.write
              r' i v } : ALDatasetRef).labeled_list =
          (⟨⟨[[4, 0, 2]]⟩, some 0, 5⟩ : ALDatasetRef).labeled_list ∧
        ({ ((⟨⟨[[4, 0, 2]]⟩, some 0, 5⟩ : ALDatasetRef).labeled_idxs).1 with
            heap := ((⟨⟨[[4, 0, 2]]⟩, some 0, 5⟩ : ALDatasetRef).labeled_idxs).1.heap.write
              r' i v } : ALDatasetRef).unlabeled_idxs =
          (⟨⟨[[4, 0, 2]]⟩, some 0, 5⟩ : ALDatasetRef).unlabeled_idxs :=
  labeled_idxs_fresh_copy ⟨⟨[[4, 0, 2]]⟩, some 0, 5⟩ 0 rfl (by decide)

end LabelBench
